import Mathlib

/-!
Verification development for the layer-service contract of the
angular-maps repository (src/src/services/layer.service.ts).

The source file declares the abstract class `LayerService`: a pure
interface of promise-returning operations over map layers and their
features (markers, polygons, polylines).  Two kinds of facts are
verified here:

* facts about the declared method signatures themselves, embedded below
  as `MethodSig` values transcribed from the TypeScript declarations;
* behavioral facts about the layer registry.  The repository contains
  no implementation under src/, so the registry semantics is modelled
  from the specification (an in-memory reference registry, as the spec
  prescribes for a conforming implementation) and the behavioral claims
  are settled against that model.
-/

namespace AngularMaps

/-! ## Embedding of the declared TypeScript types and method signatures -/

/-- Shallow embedding of the TypeScript types appearing in the
`LayerService` declaration. -/
inductive Ty where
  | number
  | voidTy
  | mapLayerDirective
  | markerOptions
  | polygonOptions
  | polylineOptions
  | markerIconInfo
  | marker
  | polygon
  | polyline
  | layer
  | array (t : Ty)
  | union (a b : Ty)
  | promise (t : Ty)
deriving DecidableEq, Repr

/-- One abstract method of the `LayerService` class: its name, required
parameters, optional parameters and return type, as declared. -/
structure MethodSig where
  name : String
  params : List (String × Ty)
  optParams : List (String × Ty)
  ret : Ty
deriving DecidableEq, Repr

/-- `AddLayer(layer: MapLayerDirective): void` (line 32). -/
def addLayerSig : MethodSig :=
  { name := "AddLayer"
    params := [("layer", Ty.mapLayerDirective)]
    optParams := []
    ret := Ty.voidTy }

/-- `CreateMarker(layer: number, options: IMarkerOptions): Promise<Marker>`
(line 44). -/
def createMarkerSig : MethodSig :=
  { name := "CreateMarker"
    params := [("layer", Ty.number), ("options", Ty.markerOptions)]
    optParams := []
    ret := Ty.promise Ty.marker }

/-- `CreateMarkers(options: Array<IMarkerOptions>, markerIcon?: IMarkerIconInfo):
Promise<Array<Marker>>` (line 57). -/
def createMarkersSig : MethodSig :=
  { name := "CreateMarkers"
    params := [("options", Ty.array Ty.markerOptions)]
    optParams := [("markerIcon", Ty.markerIconInfo)]
    ret := Ty.promise (Ty.array Ty.marker) }

/-- `CreatePolygon(layer: number, options: IPolygonOptions): Promise<Polygon>`
(line 69). -/
def createPolygonSig : MethodSig :=
  { name := "CreatePolygon"
    params := [("layer", Ty.number), ("options", Ty.polygonOptions)]
    optParams := []
    ret := Ty.promise Ty.polygon }

/-- `CreatePolygons(layer: number, options: Array<IPolygonOptions>):
Promise<Array<Polygon>>` (line 81). -/
def createPolygonsSig : MethodSig :=
  { name := "CreatePolygons"
    params := [("layer", Ty.number), ("options", Ty.array Ty.polygonOptions)]
    optParams := []
    ret := Ty.promise (Ty.array Ty.polygon) }

/-- `CreatePolyline(layer: number, options: IPolygonOptions):
Promise<Polyline|Array<Polyline>>` (line 94).  Note the declared option
type is `IPolygonOptions`, exactly as in the source. -/
def createPolylineSig : MethodSig :=
  { name := "CreatePolyline"
    params := [("layer", Ty.number), ("options", Ty.polygonOptions)]
    optParams := []
    ret := Ty.promise (Ty.union Ty.polyline (Ty.array Ty.polyline)) }

/-- `CreatePolylines(layer: number, options: Array<IPolylineOptions>):
Promise<Array<Polyline|Array<Polyline>>>` (line 106). -/
def createPolylinesSig : MethodSig :=
  { name := "CreatePolylines"
    params := [("layer", Ty.number), ("options", Ty.array Ty.polylineOptions)]
    optParams := []
    ret := Ty.promise (Ty.array (Ty.union Ty.polyline (Ty.array Ty.polyline))) }

/-- `DeleteLayer(layer: MapLayerDirective): Promise<void>` (line 117). -/
def deleteLayerSig : MethodSig :=
  { name := "DeleteLayer"
    params := [("layer", Ty.mapLayerDirective)]
    optParams := []
    ret := Ty.promise Ty.voidTy }

/-- `GetNativeLayer(layer: MapLayerDirective|number): Promise<Layer>`
(line 128). -/
def getNativeLayerSig : MethodSig :=
  { name := "GetNativeLayer"
    params := [("layer", Ty.union Ty.mapLayerDirective Ty.number)]
    optParams := []
    ret := Ty.promise Ty.layer }

/-- The full `LayerService` abstract class, in declaration order. -/
def layerServiceContract : List MethodSig :=
  [addLayerSig, createMarkerSig, createMarkersSig, createPolygonSig,
   createPolygonsSig, createPolylineSig, createPolylinesSig,
   deleteLayerSig, getNativeLayerSig]

/-! ## Spec-modelled reference registry

The repository ships only the abstract contract; the registry semantics
below is the minimal in-memory reference implementation the spec
prescribes (spec sections 3-4 and 8).  Policy choices the spec leaves
to the implementation are taken as the spec recommends: re-`AddLayer`
of a live id fails with `DuplicateLayerError`; `DeleteLayer` of an
unknown layer fails explicitly with `UnknownLayerError`. -/

/-- A latitude/longitude position (integer coordinates suffice for the
spec scenarios). -/
structure LatLong where
  lat : Int
  lng : Int
deriving DecidableEq, Repr

/-- Modelled from the spec: `IMarkerIconInfo`, custom-icon generation
information (the interface file is not under src/). -/
structure IMarkerIconInfo where
  iconId : Nat
deriving DecidableEq, Repr

/-- Modelled from the spec: `IMarkerOptions`, a plain configuration
struct with a position and optional icon information (the interface
file is not under src/). -/
structure IMarkerOptions where
  position : LatLong
  iconInfo : Option IMarkerIconInfo
deriving DecidableEq, Repr

/-- Modelled from the spec: `IPolygonOptions`, carrying one or more
paths (rings or path segments; the interface file is not under src/). -/
structure IPolygonOptions where
  paths : List (List LatLong)
deriving DecidableEq, Repr

/-- Modelled from the spec: `IPolylineOptions`, carrying a single path
(the interface file is not under src/). -/
structure IPolylineOptions where
  path : List LatLong
deriving DecidableEq, Repr

/-- Modelled from the spec: the `Marker` model.  An unbound marker has
`layerId = none`; `CreateMarker` binds it to its layer. -/
structure Marker where
  layerId : Option Nat
  position : LatLong
  icon : Option IMarkerIconInfo
deriving DecidableEq, Repr

/-- Modelled from the spec: the `Polygon` model. -/
structure Polygon where
  layerId : Nat
  paths : List (List LatLong)
deriving DecidableEq, Repr

/-- Modelled from the spec: the `Polyline` model (one rendered
segment). -/
structure Polyline where
  layerId : Nat
  path : List LatLong
deriving DecidableEq, Repr

/-- Modelled from the spec: the native `Layer` model resolved from a
layer id. -/
structure Layer where
  id : Nat
deriving DecidableEq, Repr

/-- Modelled from the spec: the `MapLayerDirective` component object;
the contract keys everything on its numeric id. -/
structure MapLayerDirective where
  id : Nat
deriving DecidableEq, Repr

/-- The error kinds of spec section 7. -/
inductive RegError where
  | unknownLayerError
  | duplicateLayerError
  | providerError
deriving DecidableEq, Repr

/-- One live entry of the registry: a layer id together with the
generation at which it was added.  The generation distinguishes the
logical layer from an earlier deleted layer that used the same id. -/
structure LayerEntry where
  id : Nat
  gen : Nat
deriving DecidableEq, Repr

/-- The registry state: the live layers in registration order, and the
number of `AddLayer` registrations performed so far (the next
generation to assign). -/
structure RegState where
  live : List LayerEntry
  adds : Nat
deriving DecidableEq, Repr

/-- The ids of the currently live layers. -/
def idsOf (s : RegState) : List Nat := s.live.map LayerEntry.id

/-- The generations of the currently live layers. -/
def gensOf (s : RegState) : List Nat := s.live.map LayerEntry.gen

/-- The initial, empty registry. -/
def initState : RegState := { live := [], adds := 0 }

/-- Modelled from the spec: `AddLayer` registers a UI-declared layer so
it becomes addressable by its id; a second `AddLayer` of a live id
fails with `DuplicateLayerError` (the spec-recommended policy). -/
def AddLayer (s : RegState) (d : MapLayerDirective) : Except RegError RegState :=
  if d.id ∈ idsOf s then
    Except.error RegError.duplicateLayerError
  else
    Except.ok { live := s.live ++ [{ id := d.id, gen := s.adds }], adds := s.adds + 1 }

/-- Modelled from the spec: `DeleteLayer` removes the layer; deleting
an unregistered layer fails explicitly with `UnknownLayerError` (the
explicit-failure policy of the two the spec allows). -/
def DeleteLayer (s : RegState) (d : MapLayerDirective) : Except RegError RegState :=
  if d.id ∈ idsOf s then
    Except.ok { live := s.live.filter (fun e => e.id != d.id), adds := s.adds }
  else
    Except.error RegError.unknownLayerError

/-- Modelled from the spec: `GetNativeLayer` resolves a layer id to the
underlying layer model, failing with `UnknownLayerError` if the id is
not registered. -/
def GetNativeLayer (s : RegState) (n : Nat) : Except RegError Layer :=
  if n ∈ idsOf s then Except.ok { id := n }
  else Except.error RegError.unknownLayerError

/-- Modelled from the spec: `CreateMarker` attaches one marker to the
named layer, failing with `UnknownLayerError` if the layer id is not
registered. -/
def CreateMarker (s : RegState) (n : Nat) (o : IMarkerOptions) : Except RegError Marker :=
  if n ∈ idsOf s then
    Except.ok { layerId := some n, position := o.position, icon := o.iconInfo }
  else
    Except.error RegError.unknownLayerError

/-- Building one unbound marker from its options; a bulk `markerIcon`,
when given, overrides the per-option icon uniformly. -/
def markerFromOptions (icon : Option IMarkerIconInfo) (o : IMarkerOptions) : Marker :=
  { layerId := none
    position := o.position
    icon := match icon with
            | some i => some i
            | none => o.iconInfo }

/-- Modelled from the spec: `CreateMarkers` produces unbound markers in
bulk, one per options entry, order-preserving; it references no layer
and consults no registry state. -/
def CreateMarkers (opts : List IMarkerOptions) (icon : Option IMarkerIconInfo) :
    Except RegError (List Marker) :=
  Except.ok (opts.map (markerFromOptions icon))

/-- Modelled from the spec: `CreatePolygon` attaches one polygon to the
named layer, failing with `UnknownLayerError` if unregistered. -/
def CreatePolygon (s : RegState) (n : Nat) (o : IPolygonOptions) : Except RegError Polygon :=
  if n ∈ idsOf s then Except.ok { layerId := n, paths := o.paths }
  else Except.error RegError.unknownLayerError

/-- Modelled from the spec: `CreatePolygons`, bulk variant keyed by a
layer id. -/
def CreatePolygons (s : RegState) (n : Nat) (os : List IPolygonOptions) :
    Except RegError (List Polygon) :=
  if n ∈ idsOf s then Except.ok (os.map (fun o => { layerId := n, paths := o.paths }))
  else Except.error RegError.unknownLayerError

/-- The result shape of `CreatePolyline`: one polyline, or an array of
polylines for a path with discontinuities. -/
inductive PolyResult where
  | single (p : Polyline)
  | multiple (ps : List Polyline)
deriving DecidableEq, Repr

/-- Modelled from the spec: `CreatePolyline` resolves to one polyline
for a single contiguous path, and to an array of polylines (one per
segment) when the options describe a path with explicit
discontinuities.  Its options carry the `IPolygonOptions` type, as the
source declaration does. -/
def CreatePolyline (s : RegState) (n : Nat) (o : IPolygonOptions) :
    Except RegError PolyResult :=
  if n ∈ idsOf s then
    match o.paths with
    | [p] => Except.ok (PolyResult.single { layerId := n, path := p })
    | ps => Except.ok (PolyResult.multiple (ps.map (fun p => { layerId := n, path := p })))
  else
    Except.error RegError.unknownLayerError

/-- Modelled from the spec: `CreatePolylines`, bulk variant keyed by a
layer id, one result per `IPolylineOptions` entry. -/
def CreatePolylines (s : RegState) (n : Nat) (os : List IPolylineOptions) :
    Except RegError (List PolyResult) :=
  if n ∈ idsOf s then
    Except.ok (os.map (fun o => PolyResult.single { layerId := n, path := o.path }))
  else
    Except.error RegError.unknownLayerError

/-! ## Operation sequences over the registry -/

/-- One issued registry operation. -/
inductive Op where
  | addLayer (d : MapLayerDirective)
  | deleteLayer (d : MapLayerDirective)
  | createMarker (n : Nat) (o : IMarkerOptions)
  | createMarkers (os : List IMarkerOptions) (icon : Option IMarkerIconInfo)
  | createPolygon (n : Nat) (o : IPolygonOptions)
  | createPolygons (n : Nat) (os : List IPolygonOptions)
  | createPolyline (n : Nat) (o : IPolygonOptions)
  | createPolylines (n : Nat) (os : List IPolylineOptions)
  | getNativeLayer (n : Nat)
deriving DecidableEq, Repr

/-- The registry-state effect of one operation: only `AddLayer` and
`DeleteLayer` mutate the id-to-layer mapping; a rejected operation
leaves the state unchanged. -/
def applyOp (s : RegState) : Op → RegState
  | Op.addLayer d => ((AddLayer s d).toOption).getD s
  | Op.deleteLayer d => ((DeleteLayer s d).toOption).getD s
  | _ => s

/-- Running a sequence of operations in issuance order. -/
def run (ops : List Op) (s : RegState) : RegState := ops.foldl applyOp s

/-- The lifecycle phase of the logical layer created by the `g`-th
registration: 0 while unregistered (generation not yet assigned),
1 while registered (live), 2 once deleted. -/
def phase (s : RegState) (g : Nat) : Nat :=
  if g ∈ gensOf s then 1 else if g < s.adds then 2 else 0

/-- The registry invariant: live ids are duplicate-free, and every live
generation was assigned by a past registration. -/
def RegInv (s : RegState) : Prop :=
  (idsOf s).Nodup ∧ ∀ e ∈ s.live, e.gen < s.adds

/-- A concrete registry state holding the single live layer 1,
as produced by `AddLayer` on the empty registry. -/
def demoState : RegState := { live := [{ id := 1, gen := 0 }], adds := 1 }

/-- Concrete marker options used to exercise the bulk operations. -/
def demoMarkerOpts : List IMarkerOptions :=
  [{ position := { lat := 1, lng := 2 }, iconInfo := none },
   { position := { lat := 3, lng := 4 }, iconInfo := none },
   { position := { lat := 5, lng := 6 }, iconInfo := some { iconId := 7 } }]

/-- Concrete polyline-creation options describing a path with one
explicit discontinuity (two segments). -/
def demoPolyOpts : IPolygonOptions :=
  { paths := [[{ lat := 0, lng := 0 }, { lat := 1, lng := 1 }],
              [{ lat := 5, lng := 5 }, { lat := 6, lng := 6 }]] }

/-! ## Helper lemmas about the registry -/

theorem applyOp_addLayer (s : RegState) (d : MapLayerDirective) :
    applyOp s (Op.addLayer d) =
      if d.id ∈ idsOf s then s
      else { live := s.live ++ [{ id := d.id, gen := s.adds }], adds := s.adds + 1 } := by
  by_cases h : d.id ∈ idsOf s <;> simp [applyOp, AddLayer, h, Except.toOption]

theorem applyOp_deleteLayer (s : RegState) (d : MapLayerDirective) :
    applyOp s (Op.deleteLayer d) =
      if d.id ∈ idsOf s then { live := s.live.filter (fun e => e.id != d.id), adds := s.adds }
      else s := by
  by_cases h : d.id ∈ idsOf s <;> simp [applyOp, DeleteLayer, h, Except.toOption]

theorem run_append (p q : List Op) (s : RegState) :
    run (p ++ q) s = run q (run p s) := by
  simp [run, List.foldl_append]

theorem mem_idsOf_applyOp (s : RegState) (op : Op) (n : Nat)
    (hn : n ∈ idsOf s) (hdel : ∀ d, op = Op.deleteLayer d → d.id ≠ n) :
    n ∈ idsOf (applyOp s op) := by
  cases op
  case addLayer d =>
    rw [applyOp_addLayer]
    split
    · exact hn
    · simp only [idsOf, List.map_append, List.mem_append]
      exact Or.inl hn
  case deleteLayer d =>
    rw [applyOp_deleteLayer]
    split
    · have hne : d.id ≠ n := hdel d rfl
      simp only [idsOf, List.mem_map, List.mem_filter, bne_iff_ne, ne_eq] at hn ⊢
      obtain ⟨e, he, rfl⟩ := hn
      exact ⟨e, ⟨he, fun h => hne h.symm⟩, rfl⟩
    · exact hn
  all_goals exact hn

theorem not_mem_idsOf_applyOp (s : RegState) (op : Op) (n : Nat)
    (hn : n ∉ idsOf s) (hadd : ∀ d, op = Op.addLayer d → d.id ≠ n) :
    n ∉ idsOf (applyOp s op) := by
  cases op
  case addLayer d =>
    rw [applyOp_addLayer]
    split
    · exact hn
    · have hne : d.id ≠ n := hadd d rfl
      simp only [idsOf, List.map_append, List.mem_append, List.map_cons, List.map_nil,
        List.mem_singleton]
      rintro (h | h)
      · exact hn h
      · exact hne h.symm
  case deleteLayer d =>
    rw [applyOp_deleteLayer]
    split
    · intro hmem
      apply hn
      simp only [idsOf, List.mem_map] at hmem ⊢
      obtain ⟨e, he, rfl⟩ := hmem
      exact ⟨e, List.mem_of_mem_filter he, rfl⟩
    · exact hn
  all_goals exact hn

theorem mem_idsOf_run (ops : List Op) (s : RegState) (n : Nat)
    (hn : n ∈ idsOf s) (hdel : ∀ d, Op.deleteLayer d ∈ ops → d.id ≠ n) :
    n ∈ idsOf (run ops s) := by
  induction ops generalizing s with
  | nil => exact hn
  | cons op ops ih =>
    show n ∈ idsOf (run ops (applyOp s op))
    refine ih (applyOp s op) ?_ ?_
    · exact mem_idsOf_applyOp s op n hn (fun d hd => hdel d (by rw [hd]; exact List.mem_cons_self _ _))
    · exact fun d hd => hdel d (List.mem_cons_of_mem _ hd)

theorem not_mem_idsOf_run (ops : List Op) (s : RegState) (n : Nat)
    (hn : n ∉ idsOf s) (hadd : ∀ d, Op.addLayer d ∈ ops → d.id ≠ n) :
    n ∉ idsOf (run ops s) := by
  induction ops generalizing s with
  | nil => exact hn
  | cons op ops ih =>
    show n ∉ idsOf (run ops (applyOp s op))
    refine ih (applyOp s op) ?_ ?_
    · exact not_mem_idsOf_applyOp s op n hn (fun d hd => hadd d (by rw [hd]; exact List.mem_cons_self _ _))
    · exact fun d hd => hadd d (List.mem_cons_of_mem _ hd)

theorem regInv_applyOp (s : RegState) (op : Op) (h : RegInv s) : RegInv (applyOp s op) := by
  obtain ⟨hnd, hg⟩ := h
  cases op
  case addLayer d =>
    rw [applyOp_addLayer]
    split
    · exact ⟨hnd, hg⟩
    · next hni =>
      constructor
      · simp only [idsOf, List.map_append, List.map_cons, List.map_nil]
        rw [List.nodup_append]
        refine ⟨hnd, List.nodup_singleton _, ?_⟩
        intro x hx hx2
        simp only [List.mem_singleton] at hx2
        exact hni (hx2 ▸ hx)
      · intro e he
        simp only [List.mem_append, List.mem_singleton] at he
        rcases he with he | he
        · exact Nat.lt_succ_of_lt (hg e he)
        · rw [he]; exact Nat.lt_succ_self _
  case deleteLayer d =>
    rw [applyOp_deleteLayer]
    split
    · constructor
      · exact List.Nodup.sublist ((List.filter_sublist _).map _) hnd
      · intro e he
        exact hg e (List.mem_of_mem_filter he)
    · exact ⟨hnd, hg⟩
  all_goals exact ⟨hnd, hg⟩

theorem regInv_run (ops : List Op) : RegInv (run ops initState) := by
  have hgen : ∀ (l : List Op) (s : RegState), RegInv s → RegInv (run l s) := by
    intro l
    induction l with
    | nil => exact fun s h => h
    | cons op l ih => exact fun s h => ih (applyOp s op) (regInv_applyOp s op h)
  exact hgen ops initState ⟨List.nodup_nil, by intro e he; cases he⟩

theorem adds_le_applyOp (s : RegState) (op : Op) : s.adds ≤ (applyOp s op).adds := by
  cases op
  case addLayer d =>
    rw [applyOp_addLayer]
    split
    · exact Nat.le_refl _
    · exact Nat.le_succ _
  case deleteLayer d =>
    rw [applyOp_deleteLayer]
    split
    · exact Nat.le_refl _
    · exact Nat.le_refl _
  all_goals exact Nat.le_refl _

theorem adds_le_run (ops : List Op) (s : RegState) : s.adds ≤ (run ops s).adds := by
  induction ops generalizing s with
  | nil => exact Nat.le_refl _
  | cons op ops ih =>
    exact Nat.le_trans (adds_le_applyOp s op) (ih (applyOp s op))

theorem phase_mono_applyOp (s : RegState) (hg : ∀ e ∈ s.live, e.gen < s.adds)
    (op : Op) (g : Nat) : phase s g ≤ phase (applyOp s op) g := by
  cases op
  case addLayer d =>
    rw [applyOp_addLayer]
    split
    · exact Nat.le_refl _
    · show phase s g ≤ phase (⟨s.live ++ [⟨d.id, s.adds⟩], s.adds + 1⟩ : RegState) g
      have hgen : gensOf (⟨s.live ++ [⟨d.id, s.adds⟩], s.adds + 1⟩ : RegState)
          = gensOf s ++ [s.adds] := by
        simp [gensOf]
      unfold phase
      rw [hgen]
      simp only [List.mem_append, List.mem_singleton]
      by_cases hmem : g ∈ gensOf s
      · simp [hmem]
      · by_cases heq : g = s.adds
        · subst heq
          have hlt : ¬ s.adds < s.adds := by omega
          rw [if_neg hmem, if_neg hlt, if_pos (Or.inr rfl)]
          omega
        · have hor : ¬ (g ∈ gensOf s ∨ g = s.adds) := by tauto
          rw [if_neg hmem, if_neg hor]
          show (if g < s.adds then 2 else 0) ≤ if g < s.adds + 1 then 2 else 0
          split_ifs <;> omega
  case deleteLayer d =>
    rw [applyOp_deleteLayer]
    split
    · show phase s g ≤
        phase (⟨s.live.filter (fun e => e.id != d.id), s.adds⟩ : RegState) g
      by_cases hmem : g ∈ gensOf s
      · have hlt : g < s.adds := by
          simp only [gensOf, List.mem_map] at hmem
          obtain ⟨e, he, rfl⟩ := hmem
          exact hg e he
        have h1 : phase s g = 1 := by simp [phase, hmem]
        rw [h1]
        by_cases hmem2 : g ∈ gensOf (⟨s.live.filter (fun e => e.id != d.id), s.adds⟩ : RegState)
        · have h2 : phase (⟨s.live.filter (fun e => e.id != d.id), s.adds⟩ : RegState) g = 1 := by
            simp [phase, hmem2]
          rw [h2]
        · have h2 : phase (⟨s.live.filter (fun e => e.id != d.id), s.adds⟩ : RegState) g = 2 := by
            simp [phase, hmem2, hlt]
          rw [h2]
          omega
      · have hmem2 : g ∉ gensOf (⟨s.live.filter (fun e => e.id != d.id), s.adds⟩ : RegState) := by
          intro hmem2
          apply hmem
          simp only [gensOf, List.mem_map] at hmem2 ⊢
          obtain ⟨e, he, rfl⟩ := hmem2
          exact ⟨e, List.mem_of_mem_filter he, rfl⟩
        have h1 : phase s g = if g < s.adds then 2 else 0 := by simp [phase, hmem]
        have h2 : phase (⟨s.live.filter (fun e => e.id != d.id), s.adds⟩ : RegState) g
            = if g < s.adds then 2 else 0 := by simp [phase, hmem2]
        rw [h1, h2]
    · exact Nat.le_refl _
  all_goals exact Nat.le_refl _

/-! ## Claim theorems -/

/-- Claim C1: after `AddLayer` for a layer with id `n` has resolved, and no
later operation deleted that id, `GetNativeLayer n` resolves to a layer
whose id equals `n`. -/
theorem getNativeLayer_after_addLayer (s s' : RegState) (d : MapLayerDirective)
    (ops : List Op)
    (hadd : AddLayer s d = Except.ok s')
    (hdel : ∀ d2, Op.deleteLayer d2 ∈ ops → d2.id ≠ d.id) :
    ∃ L, GetNativeLayer (run ops s') d.id = Except.ok L ∧ L.id = d.id := by
  have hmem : d.id ∈ idsOf s' := by
    unfold AddLayer at hadd
    split at hadd
    · cases hadd
    · injection hadd with h
      rw [← h]
      simp [idsOf]
  have hm2 := mem_idsOf_run ops s' d.id hmem hdel
  exact ⟨{ id := d.id }, by simp [GetNativeLayer, hm2], rfl⟩

theorem getNativeLayer_after_addLayer_witness :
    ∃ L, GetNativeLayer (run [] demoState) 1 = Except.ok L ∧ L.id = 1 :=
  getNativeLayer_after_addLayer initState demoState ⟨1⟩ []
    (by rfl) (fun d2 h => absurd h (List.not_mem_nil _))

/-- Claim C2: for every layer id `n` never registered by any `AddLayer` in
the history, `GetNativeLayer n` fails with `UnknownLayerError`. -/
theorem getNativeLayer_never_added (ops : List Op) (n : Nat)
    (hadd : ∀ d, Op.addLayer d ∈ ops → d.id ≠ n) :
    GetNativeLayer (run ops initState) n = Except.error RegError.unknownLayerError := by
  have hn : n ∉ idsOf (run ops initState) :=
    not_mem_idsOf_run ops initState n (by simp [initState, idsOf]) hadd
  simp [GetNativeLayer, hn]

theorem getNativeLayer_never_added_witness :
    GetNativeLayer (run [Op.addLayer ⟨2⟩] initState) 1 =
      Except.error RegError.unknownLayerError :=
  getNativeLayer_never_added [Op.addLayer ⟨2⟩] 1
    (by
      intro d h
      simp only [List.mem_singleton, Op.addLayer.injEq] at h
      subst h
      decide)

/-- Claim C3: after `DeleteLayer` for the layer with id `n` has resolved,
any subsequent `CreateMarker n _` fails with `UnknownLayerError` as long
as no later `AddLayer` re-adds id `n`. -/
theorem createMarker_after_deleteLayer (s s' : RegState) (d : MapLayerDirective)
    (ops : List Op) (o : IMarkerOptions)
    (hdelOk : DeleteLayer s d = Except.ok s')
    (hnoadd : ∀ d2, Op.addLayer d2 ∈ ops → d2.id ≠ d.id) :
    CreateMarker (run ops s') d.id o = Except.error RegError.unknownLayerError := by
  have hnm : d.id ∉ idsOf s' := by
    unfold DeleteLayer at hdelOk
    split at hdelOk
    · injection hdelOk with h
      rw [← h]
      simp only [idsOf, List.mem_map, List.mem_filter, bne_iff_ne, ne_eq]
      rintro ⟨e, ⟨_, hne⟩, heq⟩
      exact hne heq
    · cases hdelOk
  have h2 := not_mem_idsOf_run ops s' d.id hnm hnoadd
  simp [CreateMarker, h2]

theorem createMarker_after_deleteLayer_witness :
    CreateMarker (run [] (⟨[], 1⟩ : RegState)) 1
        { position := { lat := 10, lng := 20 }, iconInfo := none } =
      Except.error RegError.unknownLayerError :=
  createMarker_after_deleteLayer demoState ⟨[], 1⟩ ⟨1⟩ []
    { position := { lat := 10, lng := 20 }, iconInfo := none }
    (by rfl) (fun d2 h => absurd h (List.not_mem_nil _))

/-- Claim C4: in every reachable registry state the live layer ids are
duplicate-free, and any id that is not live never resolves to a stale
handle: `GetNativeLayer` fails explicitly with `UnknownLayerError` on it. -/
theorem registry_invariant_reachable (ops : List Op) :
    (idsOf (run ops initState)).Nodup ∧
    ∀ n, n ∉ idsOf (run ops initState) →
      GetNativeLayer (run ops initState) n = Except.error RegError.unknownLayerError := by
  refine ⟨(regInv_run ops).1, ?_⟩
  intro n hn
  simp [GetNativeLayer, hn]

theorem registry_invariant_reachable_witness :
    (idsOf (run [Op.addLayer ⟨1⟩, Op.addLayer ⟨1⟩, Op.deleteLayer ⟨1⟩] initState)).Nodup ∧
    GetNativeLayer (run [Op.addLayer ⟨1⟩, Op.addLayer ⟨1⟩, Op.deleteLayer ⟨1⟩] initState) 1 =
      Except.error RegError.unknownLayerError :=
  ⟨(registry_invariant_reachable [Op.addLayer ⟨1⟩, Op.addLayer ⟨1⟩, Op.deleteLayer ⟨1⟩]).1,
   (registry_invariant_reachable [Op.addLayer ⟨1⟩, Op.addLayer ⟨1⟩, Op.deleteLayer ⟨1⟩]).2 1
     (by decide)⟩

/-- Claim C5: `CreateMarkers` on a list of `k` options resolves to a list
of exactly `k` markers, the `i`-th marker produced from the `i`-th
options entry. -/
theorem createMarkers_length_order (opts : List IMarkerOptions)
    (icon : Option IMarkerIconInfo) :
    ∃ ms, CreateMarkers opts icon = Except.ok ms ∧ ms.length = opts.length ∧
      ∀ i (hi : i < opts.length) (hi2 : i < ms.length),
        ms.get ⟨i, hi2⟩ = markerFromOptions icon (opts.get ⟨i, hi⟩) := by
  refine ⟨opts.map (markerFromOptions icon), rfl, by simp, ?_⟩
  intro i hi hi2
  simp

theorem createMarkers_length_order_witness :
    ∃ ms, CreateMarkers demoMarkerOpts none = Except.ok ms ∧
      ms.length = demoMarkerOpts.length ∧
      ∀ i (hi : i < demoMarkerOpts.length) (hi2 : i < ms.length),
        ms.get ⟨i, hi2⟩ = markerFromOptions none (demoMarkerOpts.get ⟨i, hi⟩) :=
  createMarkers_length_order demoMarkerOpts none

/-- Claim C6: for a registered layer id, `CreatePolyline` resolves to
exactly one polyline when the options describe a single contiguous path,
and to an array of polylines whose concatenation covers the original
path when the options describe a path with an explicit discontinuity. -/
theorem createPolyline_single_or_segments (s : RegState) (n : Nat) (o : IPolygonOptions)
    (hreg : n ∈ idsOf s) :
    (∀ p, o.paths = [p] →
      CreatePolyline s n o = Except.ok (PolyResult.single ⟨n, p⟩)) ∧
    (o.paths.length ≠ 1 →
      ∃ ps, CreatePolyline s n o = Except.ok (PolyResult.multiple ps) ∧
        ps.length = o.paths.length ∧
        (ps.map Polyline.path).join = o.paths.join) := by
  constructor
  · intro p hp
    unfold CreatePolyline
    rw [if_pos hreg, hp]
  · intro hlen
    refine ⟨o.paths.map (fun p => ⟨n, p⟩), ?_, by simp, ?_⟩
    · unfold CreatePolyline
      rw [if_pos hreg]
      rcases hm : o.paths with _ | ⟨p1, _ | ⟨p2, rest⟩⟩
      · rfl
      · rw [hm] at hlen
        simp at hlen
      · rfl
    · rw [List.map_map]
      have hcomp : (Polyline.path ∘ fun p => ({ layerId := n, path := p } : Polyline)) = id := by
        funext p
        rfl
      rw [hcomp, List.map_id]

theorem createPolyline_single_or_segments_witness :
    ∃ ps, CreatePolyline demoState 1 demoPolyOpts =
        Except.ok (PolyResult.multiple ps) ∧
      ps.length = demoPolyOpts.paths.length ∧
      (ps.map Polyline.path).join = demoPolyOpts.paths.join :=
  (createPolyline_single_or_segments demoState 1 demoPolyOpts (by decide)).2 (by decide)

/-- Claim C7: the lifecycle phase of every logical layer (unregistered 0,
registered 1, deleted 2) never decreases under any operation applied in
a reachable state, and a successful re-`AddLayer` appends a fresh entry
whose generation differs from the generation of every layer live at any
earlier point of the history, so the re-added layer is logically new
even when its numeric id is reused. -/
theorem layer_lifecycle_monotone (ops : List Op) (op : Op) (g : Nat) :
    phase (run ops initState) g ≤ phase (applyOp (run ops initState) op) g ∧
    ∀ d s2, AddLayer (run ops initState) d = Except.ok s2 →
      s2.live = (run ops initState).live ++ [⟨d.id, (run ops initState).adds⟩] ∧
      ∀ p q, ops = p ++ q → ∀ e ∈ (run p initState).live,
        e.gen < (run ops initState).adds := by
  constructor
  · exact phase_mono_applyOp _ (regInv_run ops).2 op g
  · intro d s2 hadd
    constructor
    · unfold AddLayer at hadd
      split at hadd
      · cases hadd
      · injection hadd with h
        rw [← h]
    · intro p q hpq e he
      have h1 : e.gen < (run p initState).adds := (regInv_run p).2 e he
      have h2 : (run p initState).adds ≤ (run ops initState).adds := by
        rw [hpq, run_append]
        exact adds_le_run q _
      exact Nat.lt_of_lt_of_le h1 h2

theorem layer_lifecycle_monotone_witness :
    phase (run [Op.addLayer ⟨1⟩] initState) 0 ≤
      phase (applyOp (run [Op.addLayer ⟨1⟩] initState) (Op.deleteLayer ⟨1⟩)) 0 :=
  (layer_lifecycle_monotone [Op.addLayer ⟨1⟩] (Op.deleteLayer ⟨1⟩) 0).1

/-- Claim C9: as declared in the source, the single-item `CreatePolyline`
takes its options at type `IPolygonOptions` while the bulk
`CreatePolylines` takes an array of `IPolylineOptions`, and these two
option types are different. -/
theorem polyline_option_types :
    createPolylineSig.params = [("layer", Ty.number), ("options", Ty.polygonOptions)] ∧
    createPolylinesSig.params =
      [("layer", Ty.number), ("options", Ty.array Ty.polylineOptions)] ∧
    Ty.polygonOptions ≠ Ty.polylineOptions :=
  ⟨rfl, rfl, fun h => Ty.noConfusion h⟩

/-- Claim C10: `CreateMarkers` declares no layer-id parameter (unlike
`CreatePolygons` and `CreatePolylines`), and the markers it produces are
unbound: for every options list it resolves successfully, never with
`UnknownLayerError`, regardless of the registry contents. -/
theorem createMarkers_unbound (opts : List IMarkerOptions)
    (icon : Option IMarkerIconInfo) :
    (∀ pr ∈ createMarkersSig.params, pr.2 ≠ Ty.number) ∧
    ("layer", Ty.number) ∈ createPolygonsSig.params ∧
    ("layer", Ty.number) ∈ createPolylinesSig.params ∧
    ∃ ms, CreateMarkers opts icon = Except.ok ms ∧ ∀ m ∈ ms, m.layerId = none := by
  refine ⟨?_, ?_, ?_, opts.map (markerFromOptions icon), rfl, ?_⟩
  · intro pr hpr
    cases hpr with
    | head => exact fun h => Ty.noConfusion h
    | tail _ h2 => cases h2
  · exact List.mem_cons_self _ _
  · exact List.mem_cons_self _ _
  · intro m hm
    simp only [List.mem_map] at hm
    obtain ⟨o2, _, rfl⟩ := hm
    rfl

theorem createMarkers_unbound_witness :
    ∃ ms, CreateMarkers demoMarkerOpts (some { iconId := 9 }) = Except.ok ms ∧
      ∀ m ∈ ms, m.layerId = none :=
  (createMarkers_unbound demoMarkerOpts (some { iconId := 9 })).2.2.2

end AngularMaps
